import Mathlib

/-!
# Verification of the task-management REST service

A shallow embedding of the service's source files:

* `src/db/database.js`        — SQLite schema (users, tasks, UNIQUE email,
                                PRIMARY KEY ids, FOREIGN KEY ... ON DELETE CASCADE)
* `src/middleware/auth.js`    — `authenticate` (bearer-token middleware)
* `src/middleware/errorHandler.js` — `errorHandler` (centralized error handler)
* `src/controllers/authController.js` — `signup`, `login`
* `src/controllers/taskController.js` — `listTasks`, `getTask`, `createTask`,
                                `updateTask`, `deleteTask`

JavaScript request-body values are modelled by `Field` (absent key, explicit
`null`, or a string), with JS truthiness made explicit.  The SQLite store is a
pair of lists of rows; timestamps are naturals supplied as a `now` parameter
where the SQL uses `datetime('now')`.  Fresh UUIDs are supplied as parameters.
External collaborators (bcrypt, jsonwebtoken) enter as oracle functions.
-/

namespace TaskApi

/-- A JSON body field as the controllers see it: the key may be absent
(`undefined` in JS), explicitly `null`, or a string value. -/
inductive Field where
  | undef
  | null
  | str (s : String)
deriving DecidableEq, Repr

/-- JS truthiness of a body field: `undefined`, `null` and `""` are falsy. -/
def Field.truthy : Field → Bool
  | .str s => s != ""
  | _ => false

/-- The string carried by a field (`""` for `undefined`/`null`; the
controllers only read it on paths where the field is a string). -/
def Field.strVal : Field → String
  | .str s => s
  | _ => ""

/-- JS `x || d` for a field used as a string with default `d`
(e.g. `status || 'pending'` in `createTask`). -/
def Field.orDefault (f : Field) (d : String) : String :=
  if f.truthy then f.strVal else d

/-- JS `x || null` for a field stored in a nullable column
(e.g. `description || null` in `createTask`). -/
def Field.orNull (f : Field) : Option String :=
  if f.truthy then some f.strVal else none

/-- JS truthiness of a query-string parameter (absent or a string). -/
def qTruthy : Option String → Bool
  | none => false
  | some s => s != ""

/-- JS `String.prototype.trim`: strips leading and trailing whitespace. -/
def jsTrim (s : String) : String :=
  String.mk
    (((s.toList.dropWhile Char.isWhitespace).reverse.dropWhile
        Char.isWhitespace).reverse)

/-- Splitting accumulator for `splitSpace`. -/
def splitSpaceAux : List Char → List Char → List String
  | [], acc => [String.mk acc.reverse]
  | c :: cs, acc =>
    if c = ' ' then String.mk acc.reverse :: splitSpaceAux cs []
    else splitSpaceAux cs (c :: acc)

/-- JS `str.split(' ')`: split on every single space, keeping empty pieces
(`"".split(' ')` is `[""]`, `"a  b".split(' ')` is `["a","","b"]`). -/
def splitSpace (s : String) : List String :=
  splitSpaceAux s.toList []

/-- An error-response body `{error, message}`. -/
structure ErrBody where
  error : String
  message : String
deriving DecidableEq, Repr

/-- An HTTP response: success with a typed body, or an error body, each with
its status code. -/
inductive Resp (α : Type) where
  | ok (status : Nat) (body : α)
  | err (status : Nat) (body : ErrBody)
deriving DecidableEq, Repr

/-- The HTTP status code of a response. -/
def Resp.status : Resp α → Nat
  | .ok s _ => s
  | .err s _ => s

/-- The `error` kind of an error response (`none` on success). -/
def Resp.errName : Resp α → Option String
  | .ok _ _ => none
  | .err _ b => some b.error

/-- A row of the `users` table. -/
structure User where
  id : String
  email : String
  password : String
  name : String
  created_at : Nat
deriving DecidableEq, Repr

/-- A row of the `tasks` table.  `title`, `status`, `priority` are NOT NULL
columns; `description` and `due_date` are nullable. -/
structure Task where
  id : String
  user_id : String
  title : String
  description : Option String
  status : String
  priority : String
  due_date : Option String
  created_at : Nat
  updated_at : Nat
deriving DecidableEq, Repr

/-- The database: the two tables, rows in insertion (rowid) order. -/
structure DB where
  users : List User
  tasks : List Task
deriving DecidableEq, Repr

def VALID_STATUSES : List String := ["pending", "in_progress", "completed"]

def VALID_PRIORITIES : List String := ["low", "medium", "high"]

def STATUS_ENUM_MSG : String := "status must be one of: pending, in_progress, completed"

def PRIORITY_ENUM_MSG : String := "priority must be one of: low, medium, high"

def notFoundBody : ErrBody := ⟨"NotFound", "Task not found."⟩

def GENERIC_500_MSG : String := "An unexpected error occurred. Please try again later."

/-- A thrown JS error as `errorHandler` receives it: its `name`, `message`,
and optional `status` property. -/
structure JsError where
  name : String
  message : String
  status : Option Nat
deriving DecidableEq, Repr

/-- `src/middleware/errorHandler.js`: status is `err.status || 500`; the body
is `{error: err.name || 'InternalServerError', message}` where a 500 replaces
the message with a generic text. -/
def errorHandler (e : JsError) : Nat × ErrBody :=
  let status := e.status.getD 500
  (status,
   ⟨if e.name = "" then "InternalServerError" else e.name,
    if status = 500 then GENERIC_500_MSG else e.message⟩)

/-- The response produced when a controller forwards a thrown error via
`next(err)` to the centralized handler. -/
def thrown (α : Type) (e : JsError) : Resp α :=
  Resp.err (errorHandler e).1 (errorHandler e).2

/-- `SELECT * FROM users WHERE email = ?` (first row). -/
def findByEmail (db : DB) (email : String) : Option User :=
  db.users.find? (fun u => u.email == email)

/-- `SELECT * FROM tasks WHERE id = ? AND user_id = ?` (first row): the
ownership-scoped lookup used by `getTask` and `updateTask`. -/
def findTask (db : DB) (taskId userId : String) : Option Task :=
  db.tasks.find? (fun t => t.id == taskId && t.user_id == userId)

/-- Descending `created_at` order (`ORDER BY created_at DESC`). -/
def createdGe (a b : Task) : Prop := b.created_at ≤ a.created_at

instance : DecidableRel createdGe :=
  fun a b => inferInstanceAs (Decidable (b.created_at ≤ a.created_at))

instance : IsTotal Task createdGe := ⟨fun a b => Nat.le_total b.created_at a.created_at⟩

instance : IsTrans Task createdGe := ⟨fun _ _ _ h1 h2 => Nat.le_trans h2 h1⟩

/-- The result set of `ORDER BY created_at DESC`, modelled as a sort of the
matching rows by descending `created_at`. -/
def sortDesc (l : List Task) : List Task := l.insertionSort createdGe

/-- The `{count, tasks}` body returned by `listTasks`. -/
structure ListBody where
  count : Nat
  tasks : List Task
deriving DecidableEq, Repr

-- ### src/controllers/taskController.js

/-- `listTasks` (GET /api/tasks): optional `status`/`priority` query filters,
each validated against its enumeration only when truthy, then
`SELECT * FROM tasks WHERE user_id = ? [AND status = ?] [AND priority = ?]
ORDER BY created_at DESC`. -/
def listTasks (db : DB) (userId : String) (status priority : Option String) :
    Resp ListBody :=
  if qTruthy status && !(VALID_STATUSES.contains (status.getD "")) then
    .err 400 ⟨"ValidationError", STATUS_ENUM_MSG⟩
  else if qTruthy priority && !(VALID_PRIORITIES.contains (priority.getD "")) then
    .err 400 ⟨"ValidationError", PRIORITY_ENUM_MSG⟩
  else
    let rows := db.tasks.filter (fun t =>
      t.user_id == userId
      && (!(qTruthy status) || t.status == status.getD "")
      && (!(qTruthy priority) || t.priority == priority.getD ""))
    let tasks := sortDesc rows
    .ok 200 ⟨tasks.length, tasks⟩

/-- `getTask` (GET /api/tasks/:id): the ownership-scoped lookup, 404 when it
misses. -/
def getTask (db : DB) (taskId userId : String) : Resp Task :=
  match findTask db taskId userId with
  | none => .err 404 notFoundBody
  | some t => .ok 200 t

/-- The request body of `createTask` / `updateTask`: the five task fields as
JS body values. -/
structure Body where
  title : Field := .undef
  description : Field := .undef
  status : Field := .undef
  priority : Field := .undef
  due_date : Field := .undef
deriving DecidableEq, Repr

/-- `createTask` (POST /api/tasks): rejects a falsy or whitespace-only title,
validates truthy `status`/`priority` against the enumerations, then
`INSERT INTO tasks ...` with defaults `pending` / `medium` / NULL and
`created_at = updated_at = datetime('now')`.  The insert itself enforces the
table's PRIMARY KEY and its FOREIGN KEY to `users(id)` (a violation throws and
reaches the centralized handler).  The created row is then re-selected by id
and returned. -/
def createTask (db : DB) (userId : String) (b : Body) (taskId : String)
    (now : Nat) : Resp Task × DB :=
  if !b.title.truthy || jsTrim b.title.strVal == "" then
    (.err 400 ⟨"ValidationError", "title is required."⟩, db)
  else if b.status.truthy && !(VALID_STATUSES.contains b.status.strVal) then
    (.err 400 ⟨"ValidationError", STATUS_ENUM_MSG⟩, db)
  else if b.priority.truthy && !(VALID_PRIORITIES.contains b.priority.strVal) then
    (.err 400 ⟨"ValidationError", PRIORITY_ENUM_MSG⟩, db)
  else if db.tasks.any (fun t => t.id == taskId)
       || !(db.users.any (fun u => u.id == userId)) then
    (thrown Task ⟨"SqliteError", "constraint failed", none⟩, db)
  else
    let t : Task :=
      { id := taskId
        user_id := userId
        title := jsTrim b.title.strVal
        description := b.description.orNull
        status := b.status.orDefault "pending"
        priority := b.priority.orDefault "medium"
        due_date := b.due_date.orNull
        created_at := now
        updated_at := now }
    let db' : DB := { db with tasks := db.tasks ++ [t] }
    (.ok 201 ((db'.tasks.find? (fun x => x.id == taskId)).getD t), db')

/-- The merge line `title !== undefined ? title.trim() : existing.title`
(on `null` the JS throws at `.trim()` before reaching the store; `updateTask`
models that throw separately, so `null` never reaches this function). -/
def mergeTitle (f : Field) (old : String) : String :=
  match f with
  | .str s => jsTrim s
  | _ => old

/-- The merge line `x !== undefined ? x : existing.x` for the nullable
columns (`description`, `due_date`). -/
def mergeNullable (f : Field) (old : Option String) : Option String :=
  match f with
  | .undef => old
  | .null => none
  | .str s => some s

/-- The merge line `x !== undefined ? x : existing.x` for the NOT NULL text
columns (`status`, `priority`): a `none` result violates the column's
constraint when the UPDATE runs. -/
def mergeNotNull (f : Field) (old : String) : Option String :=
  match f with
  | .undef => some old
  | .null => none
  | .str s => some s

/-- `updateTask` (PATCH /api/tasks/:id): ownership-scoped existence check,
enum validation of truthy `status`/`priority`, then the field-by-field merge
(`x !== undefined ? x : existing.x`, title trimmed).  A `null` title throws
`TypeError` at `title.trim()` before the UPDATE; a `null` merged `status` or
`priority` violates the column's NOT NULL constraint, so the UPDATE throws
`SqliteError`; both reach the centralized handler.  On success the row is
rewritten with `updated_at = datetime('now')` and re-selected by id. -/
def updateTask (db : DB) (taskId userId : String) (b : Body) (now : Nat) :
    Resp Task × DB :=
  match findTask db taskId userId with
  | none => (.err 404 notFoundBody, db)
  | some existing =>
    if b.status.truthy && !(VALID_STATUSES.contains b.status.strVal) then
      (.err 400 ⟨"ValidationError", STATUS_ENUM_MSG⟩, db)
    else if b.priority.truthy && !(VALID_PRIORITIES.contains b.priority.strVal) then
      (.err 400 ⟨"ValidationError", PRIORITY_ENUM_MSG⟩, db)
    else if b.title == .null then
      (thrown Task ⟨"TypeError", "Cannot read properties of null", none⟩, db)
    else
      let updatedTitle : String := mergeTitle b.title existing.title
      let updatedDescription : Option String :=
        mergeNullable b.description existing.description
      let updatedStatus : Option String := mergeNotNull b.status existing.status
      let updatedPriority : Option String :=
        mergeNotNull b.priority existing.priority
      let updatedDueDate : Option String :=
        mergeNullable b.due_date existing.due_date
      match updatedStatus, updatedPriority with
      | some st, some pr =>
        let t' : Task :=
          { existing with
            title := updatedTitle
            description := updatedDescription
            status := st
            priority := pr
            due_date := updatedDueDate
            updated_at := now }
        let db' : DB :=
          { db with tasks := db.tasks.map (fun t =>
              if t.id == taskId && t.user_id == userId then t' else t) }
        (.ok 200 ((db'.tasks.find? (fun x => x.id == taskId)).getD t'), db')
      | _, _ =>
        (thrown Task ⟨"SqliteError", "NOT NULL constraint failed", none⟩, db)

/-- `deleteTask` (DELETE /api/tasks/:id):
`DELETE FROM tasks WHERE id = ? AND user_id = ?`; 404 when `result.changes`
is zero. -/
def deleteTask (db : DB) (taskId userId : String) : Resp String × DB :=
  let remaining := db.tasks.filter (fun t => !(t.id == taskId && t.user_id == userId))
  if remaining.length == db.tasks.length then
    (.err 404 notFoundBody, db)
  else
    (.ok 200 "Task deleted.", { db with tasks := remaining })

-- ### src/middleware/auth.js

/-- Outcome of `jwt.verify(token, JWT_SECRET)`: success decodes a payload
carrying `{id, email}`; a `TokenExpiredError` throw; or any other
verification throw (bad signature, malformed payload). -/
inductive VerifyOutcome where
  | ok (id email : String)
  | expired
  | failed
deriving DecidableEq, Repr

/-- Result of the middleware: a 401 rejection, or `req.user` set to the
decoded identity and the request passed on. -/
inductive AuthResult where
  | rejected (status : Nat) (body : ErrBody)
  | authenticated (id email : String)
deriving DecidableEq, Repr

def NO_HEADER_MSG : String :=
  "No Authorization header provided. Include: Authorization: Bearer <token>"

def BAD_FORMAT_MSG : String :=
  "Authorization header must be in format: Bearer <token>"

/-- `authenticate`: rejects a falsy header, splits it on a single space,
requires exactly two parts with the first literally `Bearer`, then dispatches
on the outcome of `jwt.verify` (supplied as an oracle `verify`). -/
def authenticate (header : Option String) (verify : String → VerifyOutcome) :
    AuthResult :=
  match header with
  | none => .rejected 401 ⟨"Unauthorized", NO_HEADER_MSG⟩
  | some h =>
    if h == "" then .rejected 401 ⟨"Unauthorized", NO_HEADER_MSG⟩
    else
      if (splitSpace h).length != 2 || (splitSpace h).getD 0 "" != "Bearer" then
        .rejected 401 ⟨"Unauthorized", BAD_FORMAT_MSG⟩
      else
        match verify ((splitSpace h).getD 1 "") with
        | .ok id email => .authenticated id email
        | .expired => .rejected 401 ⟨"TokenExpired", "Your token has expired. Please log in again."⟩
        | .failed => .rejected 401 ⟨"InvalidToken", "Token is invalid or malformed."⟩

-- ### src/controllers/authController.js

/-- The `{message, token, user:{id, name, email}}` success body of signup and
login (the password hash is never included). -/
structure AuthOk where
  message : String
  token : String
  userId : String
  userName : String
  userEmail : String
deriving DecidableEq, Repr

def INVALID_CREDENTIALS : ErrBody := ⟨"InvalidCredentials", "Invalid email or password."⟩

/-- `signup` (POST /api/auth/signup).  The email-exists pre-check reads the
store, and the `INSERT INTO users` runs later against the store as it then
stands; under concurrent signups those two states can differ, so the model
takes both (`dbAtCheck`, `dbAtInsert`); a purely sequential run has
`dbAtCheck = dbAtInsert`.  The insert enforces `UNIQUE(email)` and the id
PRIMARY KEY; a constraint violation throws `SqliteError`, which the
controller only forwards via `next(err)` to the centralized handler.
`hashed` stands for the bcrypt hash of the password, `userId` for the fresh
UUID and `token` for the signed JWT. -/
def signup (dbAtCheck dbAtInsert : DB) (name email password : Field)
    (hashed userId token : String) (now : Nat) : Resp AuthOk × DB :=
  if !name.truthy || !email.truthy || !password.truthy then
    (.err 400 ⟨"ValidationError", "name, email, and password are all required."⟩, dbAtInsert)
  else if password.strVal.length < 8 then
    (.err 400 ⟨"ValidationError", "Password must be at least 8 characters long."⟩, dbAtInsert)
  else
    match findByEmail dbAtCheck email.strVal with
    | some _ =>
      (.err 409 ⟨"Conflict", "An account with this email already exists."⟩, dbAtInsert)
    | none =>
      if (findByEmail dbAtInsert email.strVal).isSome
         || dbAtInsert.users.any (fun u => u.id == userId) then
        (thrown AuthOk ⟨"SqliteError", "UNIQUE constraint failed: users.email", none⟩,
         dbAtInsert)
      else
        let u : User :=
          { id := userId
            email := email.strVal
            password := hashed
            name := name.strVal
            created_at := now }
        (.ok 201 ⟨"Account created successfully.", token, userId, name.strVal, email.strVal⟩,
         { dbAtInsert with users := dbAtInsert.users ++ [u] })

/-- `login` (POST /api/auth/login): requires both fields truthy, looks the
user up by email, verifies the password against the stored hash via
`bcrypt.compare` (oracle `verifyPw`), and answers the same
`InvalidCredentials` body whether the email or the password was wrong. -/
def login (db : DB) (email password : Field)
    (verifyPw : String → String → Bool) (token : String) : Resp AuthOk :=
  if !email.truthy || !password.truthy then
    .err 400 ⟨"ValidationError", "email and password are required."⟩
  else
    match findByEmail db email.strVal with
    | none => .err 401 INVALID_CREDENTIALS
    | some user =>
      if !(verifyPw password.strVal user.password) then
        .err 401 INVALID_CREDENTIALS
      else
        .ok 200 ⟨"Login successful.", token, user.id, user.name, user.email⟩

-- ### src/db/database.js — store-level facts

/-- Store-level deletion of a user row.  Per the schema's
`FOREIGN KEY (user_id) REFERENCES users(id) ON DELETE CASCADE`, every task
row owned by the deleted user is removed with it.  (No HTTP route deletes
users; this is the store contract declared by the schema.) -/
def deleteUserCascade (db : DB) (userId : String) : DB :=
  { users := db.users.filter (fun u => !(u.id == userId))
    tasks := db.tasks.filter (fun t => !(t.user_id == userId)) }

/-- The schema's referential invariant: every task's `user_id` names an
existing user row. -/
def fkOk (db : DB) : Prop :=
  ∀ t ∈ db.tasks, ∃ u ∈ db.users, u.id = t.user_id

/-- The `tasks` PRIMARY KEY invariant: no two task rows share an id. -/
def taskIdsNodup (db : DB) : Prop :=
  (db.tasks.map Task.id).Nodup

-- ### Concrete fixtures used by witnesses and counterexamples

def alice : User := ⟨"A", "a@x.com", "hashA", "Alice", 1⟩

def bob : User := ⟨"B", "b@x.com", "hashB", "Bob", 2⟩

def milkTask : Task := ⟨"t1", "A", "Buy milk", some "2l", "pending", "medium", none, 10, 10⟩

def dogTask : Task := ⟨"t2", "A", "Walk dog", none, "completed", "high", none, 20, 20⟩

def sampleDb : DB := ⟨[alice, bob], [milkTask, dogTask]⟩

-- ### Helper lemmas

/-- In a table whose ids are pairwise distinct, two rows with the same id are
the same row. -/
theorem eq_of_mem_of_id_eq {db : DB} (hpk : taskIdsNodup db) {x t : Task}
    (hx : x ∈ db.tasks) (ht : t ∈ db.tasks) (hid : x.id = t.id) : x = t :=
  List.inj_on_of_nodup_map hpk hx ht hid

theorem sampleDb_nodup : taskIdsNodup sampleDb := by unfold taskIdsNodup; decide

theorem sampleDb_fkOk : fkOk sampleDb := by unfold fkOk; decide

/-- No row of the table matches an ownership-scoped query for `t.id` issued
by a non-owner, because the PRIMARY KEY makes `t` the only row with its id. -/
theorem not_match_of_other_user {db : DB} {t : Task} {bId : String}
    (hmem : t ∈ db.tasks) (hpk : taskIdsNodup db) (hne : bId ≠ t.user_id) :
    ∀ x ∈ db.tasks, ¬((x.id == t.id && x.user_id == bId) = true) := by
  intro x hx hmatch
  simp only [Bool.and_eq_true, beq_iff_eq] at hmatch
  obtain ⟨hid, huid⟩ := hmatch
  have hxt : x = t := eq_of_mem_of_id_eq hpk hx hmem hid
  exact hne (hxt ▸ huid).symm

theorem findTask_other_user_eq_none {db : DB} {t : Task} {bId : String}
    (hmem : t ∈ db.tasks) (hpk : taskIdsNodup db) (hne : bId ≠ t.user_id) :
    findTask db t.id bId = none := by
  rw [findTask, List.find?_eq_none]
  exact not_match_of_other_user hmem hpk hne

/-- C1: Ownership isolation.  For any task `t` stored in the database and
any authenticated identity `bId` different from the task's owner, `getTask`,
`updateTask` and `deleteTask` invoked with `bId` on `t.id` all answer the
404 `NotFound` body, and neither mutating operation changes the database. -/
theorem ownership_isolation (db : DB) (t : Task) (bId : String) (b : Body)
    (now : Nat) (hmem : t ∈ db.tasks) (hpk : taskIdsNodup db)
    (hne : bId ≠ t.user_id) :
    getTask db t.id bId = .err 404 notFoundBody
    ∧ updateTask db t.id bId b now = (.err 404 notFoundBody, db)
    ∧ deleteTask db t.id bId = (.err 404 notFoundBody, db) := by
  have hfind := findTask_other_user_eq_none hmem hpk hne
  refine ⟨?_, ?_, ?_⟩
  · rw [getTask, hfind]
  · rw [updateTask, hfind]
  · have hfilter : List.filter (fun x => !(x.id == t.id && x.user_id == bId)) db.tasks
        = db.tasks := by
      rw [List.filter_eq_self]
      intro a ha
      have h := not_match_of_other_user hmem hpk hne a ha
      cases hcase : (a.id == t.id && a.user_id == bId) with
      | false => decide
      | true => exact absurd hcase h
    rw [deleteTask]
    simp only [hfilter, beq_self_eq_true, if_true]

/-- C1 witness: Bob (id `B`) probing Alice's task `t1` gets 404 from all
three operations and the database is untouched. -/
theorem ownership_isolation_witness :
    getTask sampleDb "t1" "B" = .err 404 notFoundBody
    ∧ updateTask sampleDb "t1" "B" {} 99 = (.err 404 notFoundBody, sampleDb)
    ∧ deleteTask sampleDb "t1" "B" = (.err 404 notFoundBody, sampleDb) :=
  ownership_isolation sampleDb milkTask "B" {} 99 (by decide) sampleDb_nodup
    (by decide)

/-- C2 counterexample: a `status` field explicitly sent as `null` does NOT
overwrite the stored value.  On Alice's task `t1` (stored status `pending`)
a PATCH body `{status: null}` skips enum validation (null is falsy), merges
`null` into the UPDATE, and the NOT NULL constraint on `tasks.status` makes
the statement throw: the caller gets a 500 `SqliteError` body and the
database — including the stored status — is unchanged. -/
theorem update_null_status_not_overwrite :
    updateTask sampleDb "t1" "A" { status := Field.null } 99
      = (.err 500 ⟨"SqliteError", GENERIC_500_MSG⟩, sampleDb)
    ∧ milkTask ∈ sampleDb.tasks ∧ milkTask.status = "pending" := by decide

/-- C3: the race path of signup is NOT translated to `Conflict`.  First
conjunct: when the email is free at pre-check time (`dbAtCheck` holds only
Bob) but occupied by the time the INSERT runs (`dbAtInsert` = sampleDb, where
Alice owns `a@x.com`), the UNIQUE-constraint throw reaches the centralized
handler untranslated and the caller sees a 500 `SqliteError` body — not the
409 `Conflict` the spec requires.  Second conjunct: the sequential pre-check
path does answer 409 `Conflict`. -/
theorem signup_race_not_conflict :
    signup ⟨[bob], []⟩ sampleDb (.str "Carol") (.str "a@x.com")
        (.str "longenough1") "h2" "C" "tok" 50
      = (.err 500 ⟨"SqliteError", GENERIC_500_MSG⟩, sampleDb)
    ∧ signup sampleDb sampleDb (.str "Carol") (.str "a@x.com")
        (.str "longenough1") "h2" "C" "tok" 50
      = (.err 409 ⟨"Conflict", "An account with this email already exists."⟩, sampleDb) := by
  decide

/-- C4 counterexample: an empty-string `status` supplied to PATCH is present
in the body and is not a member of the enumeration, yet the operation does
not fail with `ValidationError`: it succeeds with 200 and writes the row with
`status = ""`. -/
theorem update_empty_status_written :
    (updateTask sampleDb "t1" "A" { status := Field.str "" } 99).1.status = 200
    ∧ ((updateTask sampleDb "t1" "A" { status := Field.str "" } 99).2.tasks.find?
        (fun t => t.id == "t1")).map Task.status = some ""
    ∧ ¬ ("" ∈ VALID_STATUSES) := by decide

/-- C8: the non-empty-trimmed-title invariant is established by `createTask`
(first conjunct: a whitespace-only title is rejected with `ValidationError`)
but NOT preserved by `updateTask` (remaining conjuncts: PATCHing Alice's task
`t1` with `{title: "   "}` succeeds with 200 and stores `title = ""`, empty
after trimming). -/
theorem update_breaks_title_invariant :
    createTask sampleDb "A" { title := Field.str "   " } "t9" 30
      = (.err 400 ⟨"ValidationError", "title is required."⟩, sampleDb)
    ∧ (updateTask sampleDb "t1" "A" { title := Field.str "   " } 99).1.status = 200
    ∧ ((updateTask sampleDb "t1" "A" { title := Field.str "   " } 99).2.tasks.find?
        (fun t => t.id == "t1")).map Task.title = some "" := by decide

/-- C9 counterexample: `status=` (the empty string) is an invalid status
value — it is not in the enumeration — yet listing does not yield
`ValidationError`: the filter is treated as absent and the full task list of
the caller comes back with 200. -/
theorem list_empty_status_not_rejected :
    ¬ ("" ∈ VALID_STATUSES)
    ∧ listTasks sampleDb "A" (some "") none = .ok 200 ⟨2, [dogTask, milkTask]⟩ := by
  decide

/-- C10 counterexample: PATCH `{title: null}` on an existing owned task does
produce a 500 with the generic message and leaves the store unchanged, but
the body's error kind is the thrown error's name `TypeError` — the
centralized handler only writes `InternalServerError` when the thrown error
has no name — so the response is not the `InternalServerError` body. -/
theorem update_null_title_error_kind :
    updateTask sampleDb "t1" "A" { title := Field.null } 99
      = (.err 500 ⟨"TypeError", GENERIC_500_MSG⟩, sampleDb)
    ∧ "TypeError" ≠ "InternalServerError" := by decide

/-- C6: Login failure indistinguishability.  For any database and any login
request whose two fields are present (truthy), if no user row carries the
requested email, or a row does but password verification against its stored
hash fails, the response is the very same value: status 401 with the
`InvalidCredentials` body — so the two failure causes are byte-identical to
the caller. -/
theorem login_indistinguishable (db : DB) (email password : Field)
    (verifyPw : String → String → Bool) (tok : String)
    (he : email.truthy = true) (hp : password.truthy = true)
    (hfail : findByEmail db email.strVal = none
      ∨ ∃ u, findByEmail db email.strVal = some u
          ∧ verifyPw password.strVal u.password = false) :
    login db email password verifyPw tok = .err 401 INVALID_CREDENTIALS := by
  rcases hfail with hnone | ⟨u, hu, hverify⟩
  · simp [login, he, hp, hnone]
  · simp [login, he, hp, hu, hverify]

/-- C6 witness: an unknown email, and Alice's email with a failing password
check, both yield exactly the 401 `InvalidCredentials` body. -/
theorem login_indistinguishable_witness :
    login sampleDb (.str "nobody@x.com") (.str "whatever1") (fun _ _ => false)
        "tok" = .err 401 INVALID_CREDENTIALS
    ∧ login sampleDb (.str "a@x.com") (.str "wrongpass") (fun _ _ => false)
        "tok" = .err 401 INVALID_CREDENTIALS :=
  ⟨login_indistinguishable sampleDb (.str "nobody@x.com") (.str "whatever1")
      (fun _ _ => false) "tok" (by decide) (by decide) (Or.inl (by decide)),
   login_indistinguishable sampleDb (.str "a@x.com") (.str "wrongpass")
      (fun _ _ => false) "tok" (by decide) (by decide)
      (Or.inr ⟨alice, by decide, rfl⟩)⟩

/-- C7: Token-verifier error taxonomy.  An absent (or falsy-empty) header is
rejected `Unauthorized`; a header that does not split on single spaces into
exactly two parts with the first literally `Bearer` is rejected
`Unauthorized`; a well-formed header dispatches on `jwt.verify`: an expiry
throw yields `TokenExpired`, any other verification throw yields
`InvalidToken`, and success attaches the identity `{id, email}` decoded from
the token payload. -/
theorem authenticate_taxonomy (verify : String → VerifyOutcome)
    (h tkn i e : String) :
    authenticate none verify = .rejected 401 ⟨"Unauthorized", NO_HEADER_MSG⟩
    ∧ authenticate (some "") verify
        = .rejected 401 ⟨"Unauthorized", NO_HEADER_MSG⟩
    ∧ (h ≠ "" →
        ((splitSpace h).length ≠ 2 ∨ (splitSpace h).getD 0 "" ≠ "Bearer") →
        authenticate (some h) verify
          = .rejected 401 ⟨"Unauthorized", BAD_FORMAT_MSG⟩)
    ∧ (splitSpace h = ["Bearer", tkn] →
        (verify tkn = .expired →
          authenticate (some h) verify
            = .rejected 401 ⟨"TokenExpired", "Your token has expired. Please log in again."⟩)
        ∧ (verify tkn = .failed →
          authenticate (some h) verify
            = .rejected 401 ⟨"InvalidToken", "Token is invalid or malformed."⟩)
        ∧ (verify tkn = .ok i e →
          authenticate (some h) verify = .authenticated i e)) := by
  refine ⟨rfl, rfl, ?_, ?_⟩
  · intro hne hbad
    have hbool : ((splitSpace h).length != 2
        || (splitSpace h).getD 0 "" != "Bearer") = true := by
      rcases hbad with hlen | hhd
      · simp [hlen]
      · rw [List.getD_eq_getElem?_getD] at hhd
        simp [List.getD, hhd]
    rw [authenticate]
    rw [if_neg (by simpa using hne)]
    rw [if_pos hbool]
  · intro hsplit
    have hne : h ≠ "" := by
      intro heq
      rw [heq] at hsplit
      have h0 : splitSpace "" = [""] := by decide
      rw [h0] at hsplit
      simp at hsplit
    refine ⟨?_, ?_, ?_⟩ <;> intro hv <;>
      · rw [authenticate]
        rw [if_neg (by simpa using hne)]
        simp [hsplit, hv]

/-- The `jwt.verify` oracle used by the C7 witness: one expired token, one
good token, everything else malformed. -/
def verifyFixture : String → VerifyOutcome := fun t =>
  if t == "good" then .ok "A" "a@x.com"
  else if t == "old" then .expired
  else .failed

/-- C7 witness: concrete headers exercising every branch of the taxonomy. -/
theorem authenticate_taxonomy_witness :
    authenticate none verifyFixture
      = .rejected 401 ⟨"Unauthorized", NO_HEADER_MSG⟩
    ∧ authenticate (some "Token x") verifyFixture
      = .rejected 401 ⟨"Unauthorized", BAD_FORMAT_MSG⟩
    ∧ authenticate (some "Bearer old") verifyFixture
      = .rejected 401 ⟨"TokenExpired", "Your token has expired. Please log in again."⟩
    ∧ authenticate (some "Bearer bad") verifyFixture
      = .rejected 401 ⟨"InvalidToken", "Token is invalid or malformed."⟩
    ∧ authenticate (some "Bearer good") verifyFixture
      = .authenticated "A" "a@x.com" :=
  ⟨(authenticate_taxonomy verifyFixture "x" "x" "A" "a@x.com").1,
   (authenticate_taxonomy verifyFixture "Token x" "x" "A" "a@x.com").2.2.1
     (by decide) (Or.inr (by decide)),
   ((authenticate_taxonomy verifyFixture "Bearer old" "old" "A" "a@x.com").2.2.2
     (by decide)).1 (by decide),
   ((authenticate_taxonomy verifyFixture "Bearer bad" "bad" "A" "a@x.com").2.2.2
     (by decide)).2.1 (by decide),
   ((authenticate_taxonomy verifyFixture "Bearer good" "good" "A" "a@x.com").2.2.2
     (by decide)).2.2 (by decide)⟩

/-- A truthy `status` that passes validation makes the guard
`status && !VALID_STATUSES.includes(status)` false. -/
theorem status_guard_false {b : Body}
    (hstv : b.status.truthy = true → b.status.strVal ∈ VALID_STATUSES) :
    (b.status.truthy && !(VALID_STATUSES.contains b.status.strVal)) = false := by
  cases hbs : b.status.truthy
  · rfl
  · simp [hstv hbs]

/-- A truthy `priority` that passes validation makes the guard
`priority && !VALID_PRIORITIES.includes(priority)` false. -/
theorem priority_guard_false {b : Body}
    (hprv : b.priority.truthy = true → b.priority.strVal ∈ VALID_PRIORITIES) :
    (b.priority.truthy && !(VALID_PRIORITIES.contains b.priority.strVal)) = false := by
  cases hbp : b.priority.truthy
  · rfl
  · simp [hprv hbp]

/-- C10 amended: a PATCH whose body holds `title: null` on an existing owned
task, and whose truthy `status`/`priority` values pass enum validation,
throws at `title.trim()` before any write: the centralized handler answers
500 with the generic message and error kind `TypeError` (the thrown error's
name), and the database is unchanged. -/
theorem updateTask_null_title_throws (db : DB) (taskId userId : String)
    (b : Body) (now : Nat) (ex : Task)
    (hfind : findTask db taskId userId = some ex)
    (hti : b.title = Field.null)
    (hstv : b.status.truthy = true → b.status.strVal ∈ VALID_STATUSES)
    (hprv : b.priority.truthy = true → b.priority.strVal ∈ VALID_PRIORITIES) :
    updateTask db taskId userId b now
      = (.err 500 ⟨"TypeError", GENERIC_500_MSG⟩, db) := by
  rw [updateTask, hfind]
  simp [status_guard_false hstv, priority_guard_false hprv, hti, thrown,
    errorHandler]
  rw [if_neg (fun hc => hc.2 (hstv hc.1)), if_neg (fun hc => hc.2 (hprv hc.1))]

/-- C10 amended witness: `{title: null}` on Alice's task `t2`. -/
theorem updateTask_null_title_throws_witness :
    updateTask sampleDb "t2" "A" { title := Field.null } 77
      = (.err 500 ⟨"TypeError", GENERIC_500_MSG⟩, sampleDb) :=
  updateTask_null_title_throws sampleDb "t2" "A" { title := Field.null } 77
    dogTask (by decide) rfl (by decide) (by decide)

/-- Replacing exactly the rows matched by `p` with `t'` commutes with a
subsequent first-match search by `q`, when every `q`-match is a `p`-match
and the replacement itself matches `q`: the search finds the replacement. -/
theorem find?_map_replace (p q : Task → Bool) (t' : Task) :
    ∀ (l : List Task) (ex : Task), l.find? p = some ex →
      (∀ x ∈ l, q x = true → p x = true) → q t' = true →
      (l.map (fun x => if p x then t' else x)).find? q = some t' := by
  intro l
  induction l with
  | nil => intro ex h _ _; exact absurd h (by simp)
  | cons a as ih =>
    intro ex h hq hqt'
    by_cases hpa : p a = true
    · simp only [List.map_cons, hpa, if_true]
      exact List.find?_cons_of_pos _ hqt'
    · have h' : as.find? p = some ex := by
        rw [List.find?_cons_of_neg _ hpa] at h
        exact h
      have hqa : ¬ q a = true := fun hqa => hpa (hq a (List.mem_cons_self a as) hqa)
      simp only [List.map_cons, if_neg hpa]
      rw [List.find?_cons_of_neg _ hqa]
      exact ih ex h' (fun x hx => hq x (List.mem_cons_of_mem a hx)) hqt'

/-- C2 amended: partial-update merge semantics.  For an existing owned task
`ex` (PRIMARY KEY intact) and a PATCH body whose truthy `status`/`priority`
values pass enum validation (an out-of-enum truthy value is rejected 400
with no write instead), three exhaustive cases: a `null` title throws at
`title.trim()` before any write, surfacing as 500 `TypeError` with the store
unchanged; a non-null title with a `null` `status` or `priority` fails the
column's NOT NULL constraint at the UPDATE, surfacing as 500 `SqliteError`
with the store unchanged; otherwise the update succeeds with 200, and the
stored row and the response carry, for every one of the five fields, the
stored value when the field is absent and the supplied value when it is
present (title trimmed; `null` description/dueDate overwrite with NULL;
empty strings overwrite); `id`, `user_id`, `created_at` are untouched,
`updated_at` is set to the update's `datetime('now')`, and every other row
is left exactly as it was. -/
theorem updateTask_merge (db : DB) (taskId userId : String) (b : Body)
    (now : Nat) (ex : Task)
    (hpk : taskIdsNodup db)
    (hfind : findTask db taskId userId = some ex)
    (hstv : b.status.truthy = true → b.status.strVal ∈ VALID_STATUSES)
    (hprv : b.priority.truthy = true → b.priority.strVal ∈ VALID_PRIORITIES) :
    (b.title = Field.null →
      updateTask db taskId userId b now
        = (.err 500 ⟨"TypeError", GENERIC_500_MSG⟩, db))
    ∧ (b.title ≠ Field.null →
       b.status = Field.null ∨ b.priority = Field.null →
      updateTask db taskId userId b now
        = (.err 500 ⟨"SqliteError", GENERIC_500_MSG⟩, db))
    ∧ (b.title ≠ Field.null → b.status ≠ Field.null → b.priority ≠ Field.null →
      ∃ t', updateTask db taskId userId b now
          = (.ok 200 t',
             ⟨db.users, db.tasks.map (fun x =>
                if x.id == taskId && x.user_id == userId then t' else x)⟩)
        ∧ (b.title = .undef → t'.title = ex.title)
        ∧ (∀ s, b.title = .str s → t'.title = jsTrim s)
        ∧ (b.description = .undef → t'.description = ex.description)
        ∧ (b.description = .null → t'.description = none)
        ∧ (∀ s, b.description = .str s → t'.description = some s)
        ∧ (b.status = .undef → t'.status = ex.status)
        ∧ (∀ s, b.status = .str s → t'.status = s)
        ∧ (b.priority = .undef → t'.priority = ex.priority)
        ∧ (∀ s, b.priority = .str s → t'.priority = s)
        ∧ (b.due_date = .undef → t'.due_date = ex.due_date)
        ∧ (b.due_date = .null → t'.due_date = none)
        ∧ (∀ s, b.due_date = .str s → t'.due_date = some s)
        ∧ t'.id = ex.id ∧ t'.user_id = ex.user_id
        ∧ t'.created_at = ex.created_at ∧ t'.updated_at = now) := by
  refine ⟨?_, ?_, ?_⟩
  · intro hti
    rw [updateTask, hfind]
    simp [status_guard_false hstv, priority_guard_false hprv, hti, thrown,
      errorHandler]
    rw [if_neg (fun hc => hc.2 (hstv hc.1)), if_neg (fun hc => hc.2 (hprv hc.1))]
  · intro hti hnull
    rw [updateTask, hfind]
    dsimp only
    rw [if_neg (by simpa using hstv),
        if_neg (by simpa using hprv),
        if_neg (by simp [hti])]
    rcases hnull with h | h
    · simp [h, mergeNotNull, thrown, errorHandler]
    · cases hms : mergeNotNull b.status ex.status with
      | none => simp [hms, h, mergeNotNull, thrown, errorHandler]
      | some sv => simp [hms, h, mergeNotNull, thrown, errorHandler]
  · intro hti hst hpr
    obtain ⟨stv, hstq⟩ : ∃ v, mergeNotNull b.status ex.status = some v := by
      cases hbs : b.status
      · exact ⟨ex.status, rfl⟩
      · exact absurd hbs hst
      · exact ⟨_, rfl⟩
    obtain ⟨prv, hprq⟩ : ∃ v, mergeNotNull b.priority ex.priority = some v := by
      cases hbp : b.priority
      · exact ⟨ex.priority, rfl⟩
      · exact absurd hbp hpr
      · exact ⟨_, rfl⟩
    have hfind' : db.tasks.find?
        (fun t => t.id == taskId && t.user_id == userId) = some ex := hfind
    have hexmem : ex ∈ db.tasks := List.mem_of_find?_eq_some hfind'
    have hexmatch := List.find?_some hfind'
    simp only [Bool.and_eq_true, beq_iff_eq] at hexmatch
    obtain ⟨hexid, hexuid⟩ := hexmatch
    refine ⟨{ ex with
              title := mergeTitle b.title ex.title
              description := mergeNullable b.description ex.description
              status := stv
              priority := prv
              due_date := mergeNullable b.due_date ex.due_date
              updated_at := now }, ?_, ?_, ?_, ?_, ?_, ?_, ?_, ?_, ?_, ?_, ?_,
            ?_, ?_, rfl, rfl, rfl, rfl⟩
    · have hrepl := find?_map_replace
        (fun x => x.id == taskId && x.user_id == userId)
        (fun x => x.id == taskId)
        { ex with
          title := mergeTitle b.title ex.title
          description := mergeNullable b.description ex.description
          status := stv
          priority := prv
          due_date := mergeNullable b.due_date ex.due_date
          updated_at := now }
        db.tasks ex hfind'
        (fun x hx hqx => by
          simp only [beq_iff_eq] at hqx
          have hxex : x = ex := eq_of_mem_of_id_eq hpk hx hexmem (by rw [hqx, hexid])
          simp [hxex, hexid, hexuid])
        (by simpa using hexid)
      dsimp only at hrepl
      rw [updateTask, hfind]
      dsimp only
      rw [if_neg (by simpa using hstv),
          if_neg (by simpa using hprv),
          if_neg (by simp [hti])]
      simp only [hstq, hprq, hrepl, Option.getD_some]
    · intro hx; simp [mergeTitle, hx]
    · intro s hx; simp [mergeTitle, hx]
    · intro hx; simp [mergeNullable, hx]
    · intro hx; simp [mergeNullable, hx]
    · intro s hx; simp [mergeNullable, hx]
    · intro hx
      rw [hx] at hstq
      exact (Option.some_inj.mp hstq).symm
    · intro s hx
      rw [hx] at hstq
      exact (Option.some_inj.mp hstq).symm
    · intro hx
      rw [hx] at hprq
      exact (Option.some_inj.mp hprq).symm
    · intro s hx
      rw [hx] at hprq
      exact (Option.some_inj.mp hprq).symm
    · intro hx; simp [mergeNullable, hx]
    · intro hx; simp [mergeNullable, hx]
    · intro s hx; simp [mergeNullable, hx]

/-- C2 amended witness: PATCH `{priority: null}` on Alice's task `t1` fails
the NOT NULL constraint as a 500 `SqliteError` with the store unchanged,
while PATCH `{status: "in_progress", description: null}` keeps
title/priority/dueDate, overwrites status and description, and stamps
`updated_at`. -/
theorem updateTask_merge_witness :
    updateTask sampleDb "t1" "A" { priority := Field.null } 55
      = (.err 500 ⟨"SqliteError", GENERIC_500_MSG⟩, sampleDb)
    ∧ ∃ t', updateTask sampleDb "t1" "A"
        { status := Field.str "in_progress", description := Field.null } 42
        = (.ok 200 t',
           ⟨sampleDb.users, sampleDb.tasks.map (fun x =>
              if x.id == "t1" && x.user_id == "A" then t' else x)⟩)
      ∧ (Body.title { status := Field.str "in_progress", description := Field.null } = .undef → t'.title = milkTask.title)
      ∧ (∀ s, Body.title { status := Field.str "in_progress", description := Field.null } = .str s → t'.title = jsTrim s)
      ∧ (Body.description { status := Field.str "in_progress", description := Field.null } = .undef → t'.description = milkTask.description)
      ∧ (Body.description { status := Field.str "in_progress", description := Field.null } = .null → t'.description = none)
      ∧ (∀ s, Body.description { status := Field.str "in_progress", description := Field.null } = .str s → t'.description = some s)
      ∧ (Body.status { status := Field.str "in_progress", description := Field.null } = .undef → t'.status = milkTask.status)
      ∧ (∀ s, Body.status { status := Field.str "in_progress", description := Field.null } = .str s → t'.status = s)
      ∧ (Body.priority { status := Field.str "in_progress", description := Field.null } = .undef → t'.priority = milkTask.priority)
      ∧ (∀ s, Body.priority { status := Field.str "in_progress", description := Field.null } = .str s → t'.priority = s)
      ∧ (Body.due_date { status := Field.str "in_progress", description := Field.null } = .undef → t'.due_date = milkTask.due_date)
      ∧ (Body.due_date { status := Field.str "in_progress", description := Field.null } = .null → t'.due_date = none)
      ∧ (∀ s, Body.due_date { status := Field.str "in_progress", description := Field.null } = .str s → t'.due_date = some s)
      ∧ t'.id = milkTask.id ∧ t'.user_id = milkTask.user_id
      ∧ t'.created_at = milkTask.created_at ∧ t'.updated_at = 42 :=
  ⟨(updateTask_merge sampleDb "t1" "A" { priority := Field.null } 55
      milkTask sampleDb_nodup (by decide) (by decide) (by decide)).2.1
      (by decide) (Or.inr rfl),
   (updateTask_merge sampleDb "t1" "A"
      { status := Field.str "in_progress", description := Field.null } 42
      milkTask sampleDb_nodup (by decide) (by decide) (by decide)).2.2
      (by decide) (by decide) (by decide)⟩

/-- C4 amended: enum validation of truthy values.  Whenever a *truthy*
(non-empty, non-null) `status` or `priority` value outside its enumeration is
supplied — in the query string for List (`hq`), or in the body for Create and
Update (`hb`; with a title that passes its own earlier check, and an existing
owned row for Update) — each operation fails with status 400 and error kind
`ValidationError`, and the database is not written.  (Falsy values bypass
this validation entirely — see the counterexample.) -/
theorem enum_validation_truthy (db : DB) (userId taskId : String)
    (st pr : Option String) (b : Body) (now : Nat) (ex : Task)
    (hq : (qTruthy st = true ∧ st.getD "" ∉ VALID_STATUSES)
        ∨ (qTruthy pr = true ∧ pr.getD "" ∉ VALID_PRIORITIES))
    (hb : (b.status.truthy = true ∧ b.status.strVal ∉ VALID_STATUSES)
        ∨ (b.priority.truthy = true ∧ b.priority.strVal ∉ VALID_PRIORITIES))
    (htitle : b.title.truthy = true) (htrim : jsTrim b.title.strVal ≠ "")
    (hfind : findTask db taskId userId = some ex) :
    ((listTasks db userId st pr).status = 400
      ∧ (listTasks db userId st pr).errName = some "ValidationError")
    ∧ ((createTask db userId b taskId now).1.status = 400
      ∧ (createTask db userId b taskId now).1.errName = some "ValidationError"
      ∧ (createTask db userId b taskId now).2 = db)
    ∧ ((updateTask db taskId userId b now).1.status = 400
      ∧ (updateTask db taskId userId b now).1.errName = some "ValidationError"
      ∧ (updateTask db taskId userId b now).2 = db) := by
  have ht : (!b.title.truthy || jsTrim b.title.strVal == "") = false := by
    simp [htitle, htrim]
  refine ⟨?_, ?_, ?_⟩
  · by_cases h1 : (qTruthy st && !(VALID_STATUSES.contains (st.getD ""))) = true
    · rw [listTasks, if_pos h1]
      exact ⟨rfl, rfl⟩
    · have h2 : (qTruthy pr && !(VALID_PRIORITIES.contains (pr.getD ""))) = true := by
        rcases hq with ⟨hqs, hqm⟩ | ⟨hqp, hqm⟩
        · exact absurd (by simp [hqs, hqm]) h1
        · simp [hqp, hqm]
      rw [listTasks, if_neg h1, if_pos h2]
      exact ⟨rfl, rfl⟩
  · by_cases h3 : (b.status.truthy && !(VALID_STATUSES.contains b.status.strVal)) = true
    · rw [createTask, if_neg (by simp [ht]), if_pos h3]
      exact ⟨rfl, rfl, rfl⟩
    · have h4 : (b.priority.truthy && !(VALID_PRIORITIES.contains b.priority.strVal)) = true := by
        rcases hb with ⟨hbs, hbm⟩ | ⟨hbp, hbm⟩
        · exact absurd (by simp [hbs, hbm]) h3
        · simp [hbp, hbm]
      rw [createTask, if_neg (by simp [ht]), if_neg h3, if_pos h4]
      exact ⟨rfl, rfl, rfl⟩
  · by_cases h3 : (b.status.truthy && !(VALID_STATUSES.contains b.status.strVal)) = true
    · rw [updateTask, hfind]
      dsimp only
      rw [if_pos h3]
      exact ⟨rfl, rfl, rfl⟩
    · have h4 : (b.priority.truthy && !(VALID_PRIORITIES.contains b.priority.strVal)) = true := by
        rcases hb with ⟨hbs, hbm⟩ | ⟨hbp, hbm⟩
        · exact absurd (by simp [hbs, hbm]) h3
        · simp [hbp, hbm]
      rw [updateTask, hfind]
      dsimp only
      rw [if_neg h3, if_pos h4]
      exact ⟨rfl, rfl, rfl⟩

/-- C4 amended witness: `status=bogus` in the query string, and a body with
`status: "bogus"`, are all rejected with 400 `ValidationError` and no write. -/
theorem enum_validation_truthy_witness :
    ((listTasks sampleDb "A" (some "bogus") none).status = 400
      ∧ (listTasks sampleDb "A" (some "bogus") none).errName = some "ValidationError")
    ∧ ((createTask sampleDb "A" { title := Field.str "ok", status := Field.str "bogus" } "t9" 30).1.status = 400
      ∧ (createTask sampleDb "A" { title := Field.str "ok", status := Field.str "bogus" } "t9" 30).1.errName = some "ValidationError"
      ∧ (createTask sampleDb "A" { title := Field.str "ok", status := Field.str "bogus" } "t9" 30).2 = sampleDb)
    ∧ ((updateTask sampleDb "t1" "A" { title := Field.str "ok", status := Field.str "bogus" } 30).1.status = 400
      ∧ (updateTask sampleDb "t1" "A" { title := Field.str "ok", status := Field.str "bogus" } 30).1.errName = some "ValidationError"
      ∧ (updateTask sampleDb "t1" "A" { title := Field.str "ok", status := Field.str "bogus" } 30).2 = sampleDb) :=
  enum_validation_truthy sampleDb "A" "t1" (some "bogus") none
    { title := Field.str "ok", status := Field.str "bogus" } 30 milkTask
    (Or.inl (by decide)) (Or.inl (by decide)) (by decide) (by decide)
    (by decide)

/-- C9 amended: list filtering and ordering.  With a valid (hence non-empty)
status filter, listing answers 200 with exactly the caller's tasks of that
status (a permutation of the table's matching rows), sorted by `created_at`
descending, and a count equal to the number of rows returned; with no filter
it answers all of the caller's tasks the same way; an empty status string is
treated exactly like no filter (rather than rejected); and a non-empty value
outside the enumeration answers the 400 `ValidationError` without reaching
the store. -/
theorem listTasks_filter_order (db : DB) (uid s : String)
    (hs : s ∈ VALID_STATUSES) :
    (∃ body, listTasks db uid (some s) none = .ok 200 body
      ∧ body.tasks.Perm (db.tasks.filter
          (fun t => t.user_id == uid && t.status == s))
      ∧ List.Sorted createdGe body.tasks
      ∧ body.count = body.tasks.length)
    ∧ (∃ body, listTasks db uid none none = .ok 200 body
      ∧ body.tasks.Perm (db.tasks.filter (fun t => t.user_id == uid))
      ∧ List.Sorted createdGe body.tasks
      ∧ body.count = body.tasks.length)
    ∧ listTasks db uid (some "") none = listTasks db uid none none
    ∧ (∀ v, v ≠ "" → v ∉ VALID_STATUSES →
        listTasks db uid (some v) none
          = .err 400 ⟨"ValidationError", STATUS_ENUM_MSG⟩) := by
  have hne : s ≠ "" := by
    rintro rfl
    exact absurd hs (by decide)
  have hbne : (s != "") = true := by simpa using hne
  refine ⟨?_, ?_, ?_, ?_⟩
  · rw [listTasks, if_neg (by simp [hs]), if_neg (by decide)]
    have hfc : db.tasks.filter (fun t =>
          t.user_id == uid && (!(qTruthy (some s)) || t.status == (some s).getD "")
          && (!(qTruthy none) || t.priority == (none : Option String).getD ""))
        = db.tasks.filter (fun t => t.user_id == uid && t.status == s) :=
      List.filter_congr (fun x _ => by simp [qTruthy, hbne])
    refine ⟨_, rfl, ?_, ?_, rfl⟩
    · rw [hfc]
      exact List.perm_insertionSort createdGe _
    · exact List.sorted_insertionSort createdGe _
  · rw [listTasks, if_neg (by decide), if_neg (by decide)]
    have hfc : db.tasks.filter (fun t =>
          t.user_id == uid && (!(qTruthy none) || t.status == (none : Option String).getD "")
          && (!(qTruthy none) || t.priority == (none : Option String).getD ""))
        = db.tasks.filter (fun t => t.user_id == uid) :=
      List.filter_congr (fun x _ => by simp [qTruthy])
    refine ⟨_, rfl, ?_, ?_, rfl⟩
    · rw [hfc]
      exact List.perm_insertionSort createdGe _
    · exact List.sorted_insertionSort createdGe _
  · have hf : db.tasks.filter (fun t =>
          t.user_id == uid && (!(qTruthy (some "")) || t.status == (some "" |>.getD ""))
          && (!(qTruthy none) || t.priority == (none : Option String).getD ""))
        = db.tasks.filter (fun t =>
          t.user_id == uid && (!(qTruthy none) || t.status == (none : Option String).getD "")
          && (!(qTruthy none) || t.priority == (none : Option String).getD "")) :=
      List.filter_congr (fun x _ => by simp [qTruthy])
    rw [listTasks, listTasks, if_neg (by decide), if_neg (by decide),
      if_neg (by decide), if_neg (by decide), hf]
  · intro v hv hnm
    have hvb : (v != "") = true := by simpa using hv
    rw [listTasks, if_pos (by simp [qTruthy, hvb, hnm])]

/-- C9 amended witness: listing Alice's tasks with `status=pending` returns
exactly her pending task; the no-filter, empty-filter and invalid-filter
behaviors at the same store. -/
theorem listTasks_filter_order_witness :
    (∃ body, listTasks sampleDb "A" (some "pending") none = .ok 200 body
      ∧ body.tasks.Perm (sampleDb.tasks.filter
          (fun t => t.user_id == "A" && t.status == "pending"))
      ∧ List.Sorted createdGe body.tasks
      ∧ body.count = body.tasks.length)
    ∧ (∃ body, listTasks sampleDb "A" none none = .ok 200 body
      ∧ body.tasks.Perm (sampleDb.tasks.filter (fun t => t.user_id == "A"))
      ∧ List.Sorted createdGe body.tasks
      ∧ body.count = body.tasks.length)
    ∧ listTasks sampleDb "A" (some "") none = listTasks sampleDb "A" none none
    ∧ (∀ v, v ≠ "" → v ∉ VALID_STATUSES →
        listTasks sampleDb "A" (some v) none
          = .err 400 ⟨"ValidationError", STATUS_ENUM_MSG⟩) :=
  listTasks_filter_order sampleDb "A" "pending" (by decide)

/-- `createTask` preserves the referential invariant: the insert is guarded
by the FOREIGN KEY check, and every failure path leaves the store as it
was. -/
theorem createTask_fk (db : DB) (userId : String) (b : Body) (tid : String)
    (now : Nat) (hfk : fkOk db) : fkOk (createTask db userId b tid now).2 := by
  rw [createTask]
  split_ifs with h1 h2 h3 h4
  · exact hfk
  · exact hfk
  · exact hfk
  · exact hfk
  · have huser : db.users.any (fun u => u.id == userId) = true := by
      cases hu : db.users.any (fun u => u.id == userId)
      · exact absurd (by simp [hu]) h4
      · rfl
    intro t ht
    rw [List.mem_append] at ht
    rcases ht with h | h
    · exact hfk t h
    · obtain ⟨u, hu, hui⟩ := List.any_eq_true.mp huser
      simp only [List.mem_singleton] at h
      subst h
      exact ⟨u, hu, by simpa using hui⟩

/-- `updateTask` preserves the referential invariant: a successful update
rewrites a row in place keeping its `user_id`, and every failure path leaves
the store as it was. -/
theorem updateTask_fk (db : DB) (tid uid : String) (b : Body) (now : Nat)
    (hfk : fkOk db) : fkOk (updateTask db tid uid b now).2 := by
  rw [updateTask]
  cases hfind : findTask db tid uid with
  | none => exact hfk
  | some ex =>
    have hexmem : ex ∈ db.tasks := List.mem_of_find?_eq_some hfind
    split_ifs with h1 h2 h3
    · exact hfk
    · exact hfk
    · exact hfk
    · dsimp only
      cases hst : mergeNotNull b.status ex.status with
      | none =>
        cases hpr : mergeNotNull b.priority ex.priority with
        | none => exact hfk
        | some pv => exact hfk
      | some sv =>
        cases hpr : mergeNotNull b.priority ex.priority with
        | none => exact hfk
        | some pv =>
          intro t ht
          rw [List.mem_map] at ht
          obtain ⟨x, hx, hxt⟩ := ht
          by_cases hmatch : (x.id == tid && x.user_id == uid) = true
          · rw [if_pos hmatch] at hxt
            obtain ⟨u, hu, hui⟩ := hfk ex hexmem
            exact ⟨u, hu, by rw [hui]; rw [hxt.symm]⟩
          · rw [if_neg hmatch] at hxt
            exact hxt ▸ hfk x hx

/-- `deleteTask` preserves the referential invariant: it only removes task
rows. -/
theorem deleteTask_fk (db : DB) (tid uid : String) (hfk : fkOk db) :
    fkOk (deleteTask db tid uid).2 := by
  rw [deleteTask]
  split_ifs with h1
  · exact hfk
  · intro t ht
    exact hfk t (List.mem_filter.mp ht).1

/-- `signup` preserves the referential invariant of the store it writes to:
it only ever appends a user row. -/
theorem signup_fk (dbc db : DB) (n e p : Field) (hashed uid tok : String)
    (now : Nat) (hfk : fkOk db) :
    fkOk (signup dbc db n e p hashed uid tok now).2 := by
  rw [signup]
  cases hfe : findByEmail dbc e.strVal with
  | some u => split_ifs with h1 h2 <;> exact hfk
  | none =>
    split_ifs with h1 h2 h3
    · exact hfk
    · exact hfk
    · exact hfk
    · intro t ht
      obtain ⟨u, hu, hui⟩ := hfk t ht
      exact ⟨u, List.mem_append_left _ hu, hui⟩

/-- C5: cascade on owner deletion and referential integrity.  Deleting a
user removes every task row it owns (`t` is gone from the table, `getTask`
on its id answers 404 for every caller, and no listing can return it), the
referential invariant — every stored task's `user_id` names an existing
user — survives the cascade, and it is preserved by every store-writing
operation of the service (`createTask`, whose INSERT enforces the FOREIGN
KEY, `updateTask`, `deleteTask`, `signup`). -/
theorem user_delete_cascade (db dbc : DB) (uid caller : String) (t : Task)
    (st pr : Option String) (cb ub : Body) (newId tid : String) (now : Nat)
    (n e p : Field) (hashed uid2 tok : String)
    (hmem : t ∈ db.tasks) (howner : t.user_id = uid) (hpk : taskIdsNodup db)
    (hfk : fkOk db) :
    t ∉ (deleteUserCascade db uid).tasks
    ∧ getTask (deleteUserCascade db uid) t.id caller = .err 404 notFoundBody
    ∧ (∀ body, listTasks (deleteUserCascade db uid) caller st pr = .ok 200 body
        → t ∉ body.tasks)
    ∧ fkOk (deleteUserCascade db uid)
    ∧ fkOk (createTask db caller cb newId now).2
    ∧ fkOk (updateTask db tid caller ub now).2
    ∧ fkOk (deleteTask db tid caller).2
    ∧ fkOk (signup dbc db n e p hashed uid2 tok now).2 := by
  have htno : t ∉ (deleteUserCascade db uid).tasks := by
    rw [deleteUserCascade]
    intro hin
    have := (List.mem_filter.mp hin).2
    simp [howner] at this
  refine ⟨htno, ?_, ?_, ?_, createTask_fk db caller cb newId now hfk,
    updateTask_fk db tid caller ub now hfk, deleteTask_fk db tid caller hfk,
    signup_fk dbc db n e p hashed uid2 tok now hfk⟩
  · rw [getTask]
    have hnone : findTask (deleteUserCascade db uid) t.id caller = none := by
      rw [findTask, List.find?_eq_none]
      intro x hx hmatch
      simp only [Bool.and_eq_true, beq_iff_eq] at hmatch
      have hx' := List.mem_filter.mp hx
      have hxt : x = t := eq_of_mem_of_id_eq hpk hx'.1 hmem hmatch.1
      have := hx'.2
      rw [hxt] at this
      simp [howner] at this
    rw [hnone]
  · intro body heq ht'
    apply htno
    rw [listTasks] at heq
    split_ifs at heq
    simp only [Resp.ok.injEq] at heq
    obtain ⟨-, hbody⟩ := heq
    rw [← hbody] at ht'
    dsimp only at ht'
    rw [sortDesc, List.mem_insertionSort] at ht'
    exact (List.mem_filter.mp ht').1
  · intro x hx
    have hx' := List.mem_filter.mp hx
    obtain ⟨u, hu, hui⟩ := hfk x hx'.1
    refine ⟨u, List.mem_filter.mpr ⟨hu, ?_⟩, hui⟩
    rw [hui]
    exact hx'.2

/-- C5 witness: deleting Alice cascades away her task `t1`; the invariant
survives the cascade and each store-writing operation on the sample store. -/
theorem user_delete_cascade_witness :
    milkTask ∉ (deleteUserCascade sampleDb "A").tasks
    ∧ getTask (deleteUserCascade sampleDb "A") "t1" "B" = .err 404 notFoundBody
    ∧ (∀ body, listTasks (deleteUserCascade sampleDb "A") "B" (some "pending")
        none = .ok 200 body → milkTask ∉ body.tasks)
    ∧ fkOk (deleteUserCascade sampleDb "A")
    ∧ fkOk (createTask sampleDb "B" {} "t9" 50).2
    ∧ fkOk (updateTask sampleDb "t1" "B" {} 50).2
    ∧ fkOk (deleteTask sampleDb "t1" "B").2
    ∧ fkOk (signup ⟨[], []⟩ sampleDb (.str "N") (.str "n@x.com")
        (.str "longenough1") "h" "C" "tok" 50).2 :=
  user_delete_cascade sampleDb ⟨[], []⟩ "A" "B" milkTask (some "pending") none
    {} {} "t9" "t1" 50 (.str "N") (.str "n@x.com") (.str "longenough1") "h"
    "C" "tok" (by decide) rfl sampleDb_nodup sampleDb_fkOk

end TaskApi
